import Mathlib

/-!
Shallow embedding of the ST7789 LCD panel driver
(components/esp_lcd/src/esp_lcd_panel_st7789.c) and proofs of its
specified behaviour.

The driver's side effects (bus transactions, GPIO writes, task delays)
are modelled as an explicit event trace; the bus transport is an oracle
function from transaction requests to result codes, so error-propagation
behaviour can be stated for every possible transport outcome.
-/

namespace St7789

/-- Result codes of the esp_err_t taxonomy the driver uses.
Modelled from the spec: the numeric esp_err_t values live in a header
outside this repository slice; the spec's error taxonomy (invalid-argument,
out-of-memory, unsupported-configuration, transport-failure) is modelled
as an inductive type, with `fail` carrying an arbitrary transport error. -/
inductive EspErr where
  | ok
  | invalidArg
  | noMem
  | notSupported
  | fail (code : Nat)
  deriving DecidableEq

/-- Modelled from the spec: LCD command opcodes and MADCTL bit masks are
defined in esp_lcd_panel_commands.h, which is not part of this repository
slice; the values follow the spec's on-wire command table. -/
def LCD_CMD_SWRESET : Nat := 0x01

/-- Modelled from the spec: sleep-out opcode. -/
def LCD_CMD_SLPOUT : Nat := 0x11

/-- Modelled from the spec: column address set opcode. -/
def LCD_CMD_CASET : Nat := 0x2A

/-- Modelled from the spec: row address set opcode. -/
def LCD_CMD_RASET : Nat := 0x2B

/-- Modelled from the spec: memory write opcode. -/
def LCD_CMD_RAMWR : Nat := 0x2C

/-- Modelled from the spec: memory access control opcode. -/
def LCD_CMD_MADCTL : Nat := 0x36

/-- Modelled from the spec: pixel format opcode. -/
def LCD_CMD_COLMOD : Nat := 0x3A

/-- Modelled from the spec: MADCTL bit 5, swap axes. -/
def LCD_CMD_MV_BIT : Nat := 0x20

/-- Modelled from the spec: MADCTL bit 6, mirror X. -/
def LCD_CMD_MX_BIT : Nat := 0x40

/-- Modelled from the spec: MADCTL bit 7, mirror Y. -/
def LCD_CMD_MY_BIT : Nat := 0x80

/-- Modelled from the spec: MADCTL bit 3, BGR color order. -/
def LCD_CMD_BGR_BIT : Nat := 0x08

/-- A request handed to the bus-transport collaborator:
esp_lcd_panel_io_tx_param sends a command with parameter bytes,
esp_lcd_panel_io_tx_color sends a command with a pixel payload of the
given byte length. -/
inductive TxReq where
  | param (cmd : Nat) (params : List Nat)
  | color (cmd : Nat) (len : Int)
  deriving DecidableEq

/-- Observable side effects of a driver operation, in issue order. -/
inductive Event where
  | txParam (cmd : Nat) (params : List Nat)
  | txColor (cmd : Nat) (len : Int)
  | gpioSetLevel (pin : Int) (level : Bool)
  | delayMs (ms : Nat)
  deriving DecidableEq

/-- The st7789_panel_t state (the base vtable pointers and the io handle
are represented by the transport oracle passed to each operation). -/
structure St7789Panel where
  reset_gpio_num : Int
  reset_level : Bool
  x_gap : Int
  y_gap : Int
  fb_bits_per_pixel : Nat
  madctl_val : Nat
  colmod_cal : Nat
  deriving DecidableEq

/-- C expression `v & ~bit` stored back into a uint8_t field: the int-width
complement is truncated to 8 bits on store, so for v < 256 it equals
masking with the 8-bit complement of the bit. -/
def clearBit8 (v bit : Nat) : Nat := v &&& (0xFF ^^^ bit)

/-- Low byte of a C int stored into a uint8_t: `v & 0xFF`. -/
def byteLo (v : Int) : Nat := (Int.land v 0xFF).toNat

/-- High byte of a 16-bit coordinate as the C computes it:
`(v >> 8) & 0xFF`. -/
def byteHi (v : Int) : Nat := (Int.land (v >>> (8 : Int)) 0xFF).toNat

/-- The rgb_endian field of esp_lcd_panel_dev_config_t: the source's switch
distinguishes LCD_RGB_ENDIAN_RGB, LCD_RGB_ENDIAN_BGR and a default case. -/
inductive LcdRgbEndian where
  | rgb
  | bgr
  | other
  deriving DecidableEq

/-- The fields of esp_lcd_panel_dev_config_t the source reads. -/
structure PanelDevConfig where
  reset_gpio_num : Int
  rgb_endian : LcdRgbEndian
  bits_per_pixel : Nat
  reset_active_high : Bool
  deriving DecidableEq

/-- Environment of one creation call: which required pointer arguments are
non-NULL, whether calloc succeeds, and what gpio_config would return. -/
structure CreateEnv where
  io_present : Bool
  config_present : Bool
  ret_panel_present : Bool
  alloc_ok : Bool
  gpio_config_result : EspErr
  deriving DecidableEq

/-- Outcome of esp_lcd_new_panel_st7789: the returned code, the produced
panel (none when *ret_panel is not set), and which resources are still
held when the function returns (allocLive: the calloc'd instance not yet
freed; pinLive: the reset GPIO configured and not yet reset). -/
structure CreateResult where
  result : EspErr
  panel : Option St7789Panel
  allocLive : Bool
  pinLive : Bool
  deriving DecidableEq

/-- The `err:` label of esp_lcd_new_panel_st7789:
`if (st7789) { if (panel_dev_config->reset_gpio_num >= 0) gpio_reset_pin(...); free(st7789); }`.
The allocation is freed whenever it was made, and the pin is reset exactly
when the instance exists and the config names a pin; a configured pin
survives (stays live) only if that reset is skipped. -/
def createErr (e : EspErr) (stAllocated pinConfigured pinNonneg : Bool) : CreateResult :=
  { result := e
    panel := none
    allocLive := stAllocated && !stAllocated
    pinLive := pinConfigured && !(stAllocated && pinNonneg) }

/-- esp_lcd_new_panel_st7789: argument check, calloc, optional gpio_config,
rgb_endian switch, bits_per_pixel switch, then field assignment; any
failure takes the `err:` cleanup path. -/
def esp_lcd_new_panel_st7789 (env : CreateEnv) (cfg : PanelDevConfig) : CreateResult :=
  let pinNonneg := decide (0 ≤ cfg.reset_gpio_num)
  if !(env.io_present && env.config_present && env.ret_panel_present) then
    createErr .invalidArg false false pinNonneg
  else if !env.alloc_ok then
    createErr .noMem false false pinNonneg
  else if pinNonneg && decide (env.gpio_config_result ≠ .ok) then
    createErr env.gpio_config_result true false pinNonneg
  else
    match cfg.rgb_endian with
    | .other => createErr .notSupported true pinNonneg pinNonneg
    | e =>
      let madctl_val : Nat := if e = .bgr then 0 ||| LCD_CMD_BGR_BIT else 0
      if cfg.bits_per_pixel = 16 then
        { result := .ok
          panel := some
            { reset_gpio_num := cfg.reset_gpio_num
              reset_level := cfg.reset_active_high
              x_gap := 0
              y_gap := 0
              fb_bits_per_pixel := 16
              madctl_val := madctl_val
              colmod_cal := 0x55 }
          allocLive := true
          pinLive := pinNonneg }
      else if cfg.bits_per_pixel = 18 then
        { result := .ok
          panel := some
            { reset_gpio_num := cfg.reset_gpio_num
              reset_level := cfg.reset_active_high
              x_gap := 0
              y_gap := 0
              fb_bits_per_pixel := 24
              madctl_val := madctl_val
              colmod_cal := 0x66 }
          allocLive := true
          pinLive := pinNonneg }
      else
        createErr .notSupported true pinNonneg pinNonneg

/-- panel_st7789_reset: hardware path when a reset pin is configured,
software reset command otherwise. -/
def panel_st7789_reset (tx : TxReq → EspErr) (st : St7789Panel) : EspErr × List Event :=
  if 0 ≤ st.reset_gpio_num then
    (.ok, [.gpioSetLevel st.reset_gpio_num st.reset_level, .delayMs 10,
           .gpioSetLevel st.reset_gpio_num (!st.reset_level), .delayMs 10])
  else
    match tx (.param LCD_CMD_SWRESET []) with
    | .ok => (.ok, [.txParam LCD_CMD_SWRESET [], .delayMs 20])
    | e => (e, [.txParam LCD_CMD_SWRESET []])

/-- The gamma value table the source compiles in (ANALOG_GAMMA without
GAMMA_CURVE selects the "high contrast" row, sent for both 0xE0 and 0xE1). -/
def gammaTable : List Nat :=
  [0xf0, 0x04, 0x08, 0x06, 0x08, 0x28, 0x40, 0x43, 0x60, 0x1e, 0x1c, 0x18, 0x35, 0x36]

/-- panel_st7789_init: SLPOUT, 100 ms delay, MADCTL, COLMOD, each aborting
on transport failure; then the two gamma commands whose results the source
discards. -/
def panel_st7789_init (tx : TxReq → EspErr) (st : St7789Panel) : EspErr × List Event :=
  match tx (.param LCD_CMD_SLPOUT []) with
  | .ok =>
    match tx (.param LCD_CMD_MADCTL [st.madctl_val]) with
    | .ok =>
      match tx (.param LCD_CMD_COLMOD [st.colmod_cal]) with
      | .ok =>
        (.ok, [.txParam LCD_CMD_SLPOUT [], .delayMs 100,
               .txParam LCD_CMD_MADCTL [st.madctl_val],
               .txParam LCD_CMD_COLMOD [st.colmod_cal],
               .txParam 0xE0 gammaTable,
               .txParam 0xE1 gammaTable])
      | e =>
        (e, [.txParam LCD_CMD_SLPOUT [], .delayMs 100,
             .txParam LCD_CMD_MADCTL [st.madctl_val],
             .txParam LCD_CMD_COLMOD [st.colmod_cal]])
    | e =>
      (e, [.txParam LCD_CMD_SLPOUT [], .delayMs 100,
           .txParam LCD_CMD_MADCTL [st.madctl_val]])
  | e => (e, [.txParam LCD_CMD_SLPOUT []])

/-- panel_st7789_draw_bitmap: the assert on the coordinate ordering is
modelled as none (no event is issued when it fires); otherwise gaps are
added, CASET and RASET carry the big-endian start and end-1 bytes, and
RAMWR carries the computed payload length. -/
def panel_st7789_draw_bitmap (tx : TxReq → EspErr) (st : St7789Panel)
    (x_start y_start x_end y_end : Int) : Option (EspErr × List Event) :=
  if x_start < x_end ∧ y_start < y_end then
    let xs := x_start + st.x_gap
    let xe := x_end + st.x_gap
    let ys := y_start + st.y_gap
    let ye := y_end + st.y_gap
    let caset : List Nat := [byteHi xs, byteLo xs, byteHi (xe - 1), byteLo (xe - 1)]
    let raset : List Nat := [byteHi ys, byteLo ys, byteHi (ye - 1), byteLo (ye - 1)]
    let len : Int := (xe - xs) * (ye - ys) * (st.fb_bits_per_pixel : Int) / 8
    some (match tx (.param LCD_CMD_CASET caset) with
      | .ok =>
        match tx (.param LCD_CMD_RASET raset) with
        | .ok =>
          match tx (.color LCD_CMD_RAMWR len) with
          | .ok => (.ok, [.txParam LCD_CMD_CASET caset, .txParam LCD_CMD_RASET raset,
                          .txColor LCD_CMD_RAMWR len])
          | e => (e, [.txParam LCD_CMD_CASET caset, .txParam LCD_CMD_RASET raset,
                      .txColor LCD_CMD_RAMWR len])
        | e => (e, [.txParam LCD_CMD_CASET caset, .txParam LCD_CMD_RASET raset])
      | e => (e, [.txParam LCD_CMD_CASET caset]))
  else
    none

/-- The MADCTL update of panel_st7789_mirror: set or clear MX from
mirror_x, then set or clear MY from mirror_y. -/
def mirrorMadctl (m : Nat) (mirror_x mirror_y : Bool) : Nat :=
  let m1 := if mirror_x then m ||| LCD_CMD_MX_BIT else clearBit8 m LCD_CMD_MX_BIT
  if mirror_y then m1 ||| LCD_CMD_MY_BIT else clearBit8 m1 LCD_CMD_MY_BIT

/-- The MADCTL update of panel_st7789_swap_xy: set or clear MV. -/
def swapMadctl (m : Nat) (swap_axes : Bool) : Nat :=
  if swap_axes then m ||| LCD_CMD_MV_BIT else clearBit8 m LCD_CMD_MV_BIT

/-- panel_st7789_mirror: update madctl_val, then write it with MADCTL;
the state is updated before the transport call, whose result is returned. -/
def panel_st7789_mirror (tx : TxReq → EspErr) (st : St7789Panel)
    (mirror_x mirror_y : Bool) : EspErr × St7789Panel × List Event :=
  let m := mirrorMadctl st.madctl_val mirror_x mirror_y
  (tx (.param LCD_CMD_MADCTL [m]), { st with madctl_val := m },
   [.txParam LCD_CMD_MADCTL [m]])

/-- panel_st7789_swap_xy: update madctl_val, then write it with MADCTL. -/
def panel_st7789_swap_xy (tx : TxReq → EspErr) (st : St7789Panel)
    (swap_axes : Bool) : EspErr × St7789Panel × List Event :=
  let m := swapMadctl st.madctl_val swap_axes
  (tx (.param LCD_CMD_MADCTL [m]), { st with madctl_val := m },
   [.txParam LCD_CMD_MADCTL [m]])

/-- panel_st7789_set_gap: store the two offsets; no transport call. -/
def panel_st7789_set_gap (st : St7789Panel) (x_gap y_gap : Int) :
    EspErr × St7789Panel × List Event :=
  (.ok, { st with x_gap := x_gap, y_gap := y_gap }, [])

/-- Big-endian 16-bit encoding of a nonnegative value, written from the
spec's wording ("big-endian 16-bit start and (end-1) column values") to be
compared against the byte expressions the source computes. -/
def be16 (v : Int) : List Nat := [v.toNat / 256, v.toNat % 256]

end St7789

namespace St7789

set_option maxRecDepth 16384

/-- The low byte the source computes is the value mod 256, for nonnegative
coordinates. -/
theorem byteLo_eq (v : Int) (h0 : 0 ≤ v) : byteLo v = v.toNat % 256 := by
  obtain ⟨n, rfl⟩ := Int.eq_ofNat_of_zero_le h0
  have h1 : Int.land (n : Int) 0xFF = ((n &&& 255 : Nat) : Int) := rfl
  rw [byteLo, h1]
  simp [Nat.and_pow_two_sub_one_eq_mod n 8]
  omega

/-- The high byte the source computes is the value div 256, for
coordinates in the 16-bit range. -/
theorem byteHi_eq (v : Int) (h0 : 0 ≤ v) (h1 : v < 65536) : byteHi v = v.toNat / 256 := by
  obtain ⟨n, rfl⟩ := Int.eq_ofNat_of_zero_le h0
  have h2 : ((n : Int) >>> (8 : Int)) = ((n >>> 8 : Nat) : Int) := rfl
  rw [byteHi, h2]
  have h3 : Int.land ((n >>> 8 : Nat) : Int) 0xFF = (((n >>> 8) &&& 255 : Nat) : Int) := rfl
  rw [h3]
  have h4 : (n >>> 8) &&& 255 = (n >>> 8) % 256 := by
    simpa using Nat.and_pow_two_sub_one_eq_mod (n >>> 8) 8
  have h5 : n >>> 8 = n / 256 := by
    rw [Nat.shiftRight_eq_div_pow]
  rw [h4, h5]
  have h6 : n < 65536 := by omega
  omega

/-- The byte pair the source sends for a coordinate in the 16-bit range is
exactly its big-endian 16-bit encoding. -/
theorem bytePair_eq_be16 (v : Int) (h0 : 0 ≤ v) (h1 : v < 65536) :
    [byteHi v, byteLo v] = be16 v := by
  rw [byteHi_eq v h0 h1, byteLo_eq v h0, be16]

/-- C9: SetGap stores the two given offsets into xGap and yGap, performs no
transport I/O, always returns success, and changes no other field of the
driver state. -/
theorem set_gap_effect (st : St7789Panel) (xg yg : Int) :
    panel_st7789_set_gap st xg yg = (.ok, { st with x_gap := xg, y_gap := yg }, []) ∧
    (panel_st7789_set_gap st xg yg).2.1.x_gap = xg ∧
    (panel_st7789_set_gap st xg yg).2.1.y_gap = yg ∧
    (panel_st7789_set_gap st xg yg).2.1.reset_gpio_num = st.reset_gpio_num ∧
    (panel_st7789_set_gap st xg yg).2.1.reset_level = st.reset_level ∧
    (panel_st7789_set_gap st xg yg).2.1.fb_bits_per_pixel = st.fb_bits_per_pixel ∧
    (panel_st7789_set_gap st xg yg).2.1.madctl_val = st.madctl_val ∧
    (panel_st7789_set_gap st xg yg).2.1.colmod_cal = st.colmod_cal :=
  ⟨rfl, rfl, rfl, rfl, rfl, rfl, rfl, rfl⟩

/-- C7: DrawBitmap produces transport activity exactly when the assertion
precondition xStart < xEnd and yStart < yEnd holds; a violating call is
the assertion firing (none), with no command issued. -/
theorem draw_bitmap_assert (tx : TxReq → EspErr) (st : St7789Panel)
    (xs ys xe ye : Int) :
    (panel_st7789_draw_bitmap tx st xs ys xe ye).isSome =
      (decide (xs < xe) && decide (ys < ye)) := by
  unfold panel_st7789_draw_bitmap
  split
  · next h => simp [h.1, h.2]
  · next h =>
    rcases not_and_or.mp h with h1 | h1 <;> simp [h1]

/-- C3: Reset takes the hardware path exactly when a reset pin was
configured, issuing setLevel(active), sleep 10, setLevel(inactive),
sleep 10 and always succeeding; without a pin it issues software reset
0x01 then sleeps 20 ms, and a transport failure of that command is
returned as the error. -/
theorem reset_paths (tx : TxReq → EspErr) (st : St7789Panel) :
    (0 ≤ st.reset_gpio_num →
       panel_st7789_reset tx st =
         (.ok, [.gpioSetLevel st.reset_gpio_num st.reset_level, .delayMs 10,
                .gpioSetLevel st.reset_gpio_num (!st.reset_level), .delayMs 10])) ∧
    (st.reset_gpio_num < 0 →
       (tx (.param 0x01 []) = .ok →
          panel_st7789_reset tx st = (.ok, [.txParam 0x01 [], .delayMs 20])) ∧
       (tx (.param 0x01 []) ≠ .ok →
          panel_st7789_reset tx st = (tx (.param 0x01 []), [.txParam 0x01 []]))) := by
  constructor
  · intro h
    unfold panel_st7789_reset
    rw [if_pos h]
  · intro h
    have hn : ¬(0 ≤ st.reset_gpio_num) := not_le.mpr h
    constructor
    · intro h1
      unfold panel_st7789_reset
      rw [if_neg hn]
      have h2 : tx (.param LCD_CMD_SWRESET []) = .ok := h1
      rw [h2]
      rfl
    · intro h1
      unfold panel_st7789_reset
      rw [if_neg hn]
      have h2 : tx (.param LCD_CMD_SWRESET []) = tx (.param 0x01 []) := rfl
      rw [h2]
      cases h3 : tx (.param 0x01 []) with
      | ok => exact absurd h3 h1
      | invalidArg => rfl
      | noMem => rfl
      | notSupported => rfl
      | fail c => rfl

/-- Witness for C3 at concrete inputs: a panel with reset pin 5 and active
level high takes the GPIO path and succeeds even under a failing
transport; a panel without a pin propagates the transport error of the
software-reset command. -/
theorem reset_paths_witness :
    panel_st7789_reset (fun _ => .fail 3) ⟨5, true, 0, 0, 16, 0, 0x55⟩ =
      (.ok, [.gpioSetLevel 5 true, .delayMs 10, .gpioSetLevel 5 false, .delayMs 10]) ∧
    panel_st7789_reset (fun _ => .fail 3) ⟨-1, true, 0, 0, 16, 0, 0x55⟩ =
      (.fail 3, [.txParam 0x01 []]) := by
  constructor
  · have h := (reset_paths (fun _ => .fail 3) ⟨5, true, 0, 0, 16, 0, 0x55⟩).1 (by decide)
    simpa using h
  · have h := ((reset_paths (fun _ => .fail 3) ⟨-1, true, 0, 0, 16, 0, 0x55⟩).2 (by decide)).2 (by decide)
    simpa using h

end St7789

namespace St7789

set_option maxRecDepth 16384

/-- C4: Initialize sends sleep-out 0x11, waits 100 ms, sends MADCTL 0x36
with the combined byte, then COLMOD 0x3A with the pixel-format code; a
transport failure of any of the three aborts the sequence and is returned
immediately, while the gamma commands that follow never affect the
returned value. -/
theorem init_sequence (tx : TxReq → EspErr) (st : St7789Panel) :
    (tx (.param 0x11 []) ≠ .ok →
       panel_st7789_init tx st = (tx (.param 0x11 []), [.txParam 0x11 []])) ∧
    (tx (.param 0x11 []) = .ok → tx (.param 0x36 [st.madctl_val]) ≠ .ok →
       panel_st7789_init tx st =
         (tx (.param 0x36 [st.madctl_val]),
          [.txParam 0x11 [], .delayMs 100, .txParam 0x36 [st.madctl_val]])) ∧
    (tx (.param 0x11 []) = .ok → tx (.param 0x36 [st.madctl_val]) = .ok →
       tx (.param 0x3A [st.colmod_cal]) ≠ .ok →
       panel_st7789_init tx st =
         (tx (.param 0x3A [st.colmod_cal]),
          [.txParam 0x11 [], .delayMs 100, .txParam 0x36 [st.madctl_val],
           .txParam 0x3A [st.colmod_cal]])) ∧
    (tx (.param 0x11 []) = .ok → tx (.param 0x36 [st.madctl_val]) = .ok →
       tx (.param 0x3A [st.colmod_cal]) = .ok →
       panel_st7789_init tx st =
         (.ok, [.txParam 0x11 [], .delayMs 100, .txParam 0x36 [st.madctl_val],
                .txParam 0x3A [st.colmod_cal], .txParam 0xE0 gammaTable,
                .txParam 0xE1 gammaTable])) := by
  have e1 : tx (.param LCD_CMD_SLPOUT []) = tx (.param 0x11 []) := rfl
  have e2 : tx (.param LCD_CMD_MADCTL [st.madctl_val]) = tx (.param 0x36 [st.madctl_val]) := rfl
  have e3 : tx (.param LCD_CMD_COLMOD [st.colmod_cal]) = tx (.param 0x3A [st.colmod_cal]) := rfl
  refine ⟨?_, ?_, ?_, ?_⟩
  · intro h1
    unfold panel_st7789_init
    rw [e1]
    cases h : tx (.param 0x11 []) with
    | ok => exact absurd h h1
    | invalidArg => rfl
    | noMem => rfl
    | notSupported => rfl
    | fail c => rfl
  · intro h1 h2
    unfold panel_st7789_init
    rw [e1, h1, e2]
    cases h : tx (.param 0x36 [st.madctl_val]) with
    | ok => exact absurd h h2
    | invalidArg => rfl
    | noMem => rfl
    | notSupported => rfl
    | fail c => rfl
  · intro h1 h2 h3
    unfold panel_st7789_init
    rw [e1, h1, e2, h2, e3]
    cases h : tx (.param 0x3A [st.colmod_cal]) with
    | ok => exact absurd h h3
    | invalidArg => rfl
    | noMem => rfl
    | notSupported => rfl
    | fail c => rfl
  · intro h1 h2 h3
    unfold panel_st7789_init
    rw [e1, h1, e2, h2, e3, h3]
    rfl

/-- Witness for C4 at concrete inputs: a transport failing exactly on the
MADCTL command makes Initialize return that failure after the sleep-out
and delay; a transport failing only on the first gamma command still makes
Initialize return success with the full trace. -/
theorem init_sequence_witness :
    panel_st7789_init (fun r => if r = .param 0x36 [8] then .fail 9 else .ok)
      ⟨-1, false, 0, 0, 16, 8, 0x55⟩ =
      (.fail 9, [.txParam 0x11 [], .delayMs 100, .txParam 0x36 [8]]) ∧
    panel_st7789_init (fun r => if r = .param 0xE0 gammaTable then .fail 9 else .ok)
      ⟨-1, false, 0, 0, 16, 8, 0x55⟩ =
      (.ok, [.txParam 0x11 [], .delayMs 100, .txParam 0x36 [8], .txParam 0x3A [0x55],
             .txParam 0xE0 gammaTable, .txParam 0xE1 gammaTable]) := by
  constructor
  · have h := (init_sequence (fun r => if r = .param 0x36 [8] then .fail 9 else .ok)
      ⟨-1, false, 0, 0, 16, 8, 0x55⟩).2.1 (by decide) (by decide)
    simpa using h
  · have h := (init_sequence (fun r => if r = .param 0xE0 gammaTable then .fail 9 else .ok)
      ⟨-1, false, 0, 0, 16, 8, 0x55⟩).2.2.2 (by decide) (by decide) (by decide)
    simpa using h

/-- Bit-level behaviour of the mirror update, checked over every byte value
and flag combination. -/
theorem mirrorMadctl_bits : ∀ m < 256, ∀ mx my : Bool,
    mirrorMadctl m mx my < 256 ∧
    (mirrorMadctl m mx my).testBit 6 = mx ∧
    (mirrorMadctl m mx my).testBit 7 = my ∧
    ∀ i < 8, i ≠ 6 → i ≠ 7 → (mirrorMadctl m mx my).testBit i = m.testBit i := by
  decide

/-- Bit-level behaviour of the swap update, checked over every byte value
and flag value. -/
theorem swapMadctl_bits : ∀ m < 256, ∀ sw : Bool,
    swapMadctl m sw < 256 ∧
    (swapMadctl m sw).testBit 5 = sw ∧
    ∀ i < 8, i ≠ 5 → (swapMadctl m sw).testBit i = m.testBit i := by
  decide

/-- Order-independence of the mirror and swap updates, checked over every
byte value. -/
theorem madctl_commute_bits : ∀ m < 256,
    swapMadctl (mirrorMadctl m true false) true = mirrorMadctl (swapMadctl m true) true false ∧
    (swapMadctl (mirrorMadctl m true false) true).testBit 6 = true ∧
    (swapMadctl (mirrorMadctl m true false) true).testBit 5 = true ∧
    (swapMadctl (mirrorMadctl m true false) true).testBit 7 = false := by
  decide

end St7789

namespace St7789

set_option maxRecDepth 16384

/-- C5: Mirror sets or clears only the X-mirror bit 6 from mirrorX and only
the Y-mirror bit 7 from mirrorY, and SwapXY sets or clears only the
swap-axes bit 5 from swap; every other bit of the combined byte, the BGR
flag bit 3 included, is preserved unchanged. -/
theorem mirror_swap_bit_effects (tx : TxReq → EspErr) (st : St7789Panel)
    (mx my sw : Bool) (h : st.madctl_val < 256) :
    ((panel_st7789_mirror tx st mx my).2.1.madctl_val < 256 ∧
     ((panel_st7789_mirror tx st mx my).2.1.madctl_val).testBit 6 = mx ∧
     ((panel_st7789_mirror tx st mx my).2.1.madctl_val).testBit 7 = my ∧
     ∀ i < 8, i ≠ 6 → i ≠ 7 →
       ((panel_st7789_mirror tx st mx my).2.1.madctl_val).testBit i =
         st.madctl_val.testBit i) ∧
    ((panel_st7789_swap_xy tx st sw).2.1.madctl_val < 256 ∧
     ((panel_st7789_swap_xy tx st sw).2.1.madctl_val).testBit 5 = sw ∧
     ∀ i < 8, i ≠ 5 →
       ((panel_st7789_swap_xy tx st sw).2.1.madctl_val).testBit i =
         st.madctl_val.testBit i) :=
  ⟨mirrorMadctl_bits st.madctl_val h mx my, swapMadctl_bits st.madctl_val h sw⟩

/-- Witness for C5 at a concrete input: from the creation-time BGR byte
0x08, Mirror(true, false) sets bit 6, leaves bit 7 clear and preserves the
BGR flag bit 3; SwapXY(true) sets bit 5 and also preserves bit 3. -/
theorem mirror_swap_bit_effects_witness :
    ((panel_st7789_mirror (fun _ => .ok) ⟨-1, false, 0, 0, 16, 8, 0x55⟩ true false).2.1.madctl_val).testBit 6 = true ∧
    ((panel_st7789_mirror (fun _ => .ok) ⟨-1, false, 0, 0, 16, 8, 0x55⟩ true false).2.1.madctl_val).testBit 7 = false ∧
    ((panel_st7789_mirror (fun _ => .ok) ⟨-1, false, 0, 0, 16, 8, 0x55⟩ true false).2.1.madctl_val).testBit 3 = true ∧
    ((panel_st7789_swap_xy (fun _ => .ok) ⟨-1, false, 0, 0, 16, 8, 0x55⟩ true).2.1.madctl_val).testBit 3 = true := by
  have h := mirror_swap_bit_effects (fun _ => .ok) ⟨-1, false, 0, 0, 16, 8, 0x55⟩
    true false true (by decide)
  refine ⟨h.1.2.1, h.1.2.2.1, ?_, ?_⟩
  · have h3 := h.1.2.2.2 3 (by decide) (by decide) (by decide)
    rw [h3]
    decide
  · have h3 := h.2.2.2 3 (by decide) (by decide)
    rw [h3]
    decide

/-- C6: starting from any driver state, Mirror(true, false) and SwapXY(true)
commute on the combined MADCTL byte, and the result has the mirror-X and
swap-axes bits set and the mirror-Y bit clear. -/
theorem mirror_swap_order_independent (tx tx' : TxReq → EspErr) (st : St7789Panel)
    (h : st.madctl_val < 256) :
    (panel_st7789_swap_xy tx (panel_st7789_mirror tx' st true false).2.1 true).2.1.madctl_val =
      (panel_st7789_mirror tx' (panel_st7789_swap_xy tx st true).2.1 true false).2.1.madctl_val ∧
    ((panel_st7789_swap_xy tx (panel_st7789_mirror tx' st true false).2.1 true).2.1.madctl_val).testBit 6 = true ∧
    ((panel_st7789_swap_xy tx (panel_st7789_mirror tx' st true false).2.1 true).2.1.madctl_val).testBit 5 = true ∧
    ((panel_st7789_swap_xy tx (panel_st7789_mirror tx' st true false).2.1 true).2.1.madctl_val).testBit 7 = false :=
  madctl_commute_bits st.madctl_val h

/-- Witness for C6 at a concrete input: from the BGR creation byte 0x08 the
two call orders agree on the combined byte. -/
theorem mirror_swap_order_independent_witness :
    (panel_st7789_swap_xy (fun _ => .ok)
        (panel_st7789_mirror (fun _ => .fail 2) ⟨-1, false, 0, 0, 16, 8, 0x55⟩ true false).2.1
        true).2.1.madctl_val =
      (panel_st7789_mirror (fun _ => .fail 2)
        (panel_st7789_swap_xy (fun _ => .ok) ⟨-1, false, 0, 0, 16, 8, 0x55⟩ true).2.1
        true false).2.1.madctl_val := by
  have h := mirror_swap_order_independent (fun _ => .ok) (fun _ => .fail 2)
    ⟨-1, false, 0, 0, 16, 8, 0x55⟩ (by decide)
  exact h.1

end St7789

namespace St7789

set_option maxRecDepth 16384

/-- C1: Create maps color order RGB to a combined byte of 0 (BGR flag
clear), BGR to the BGR flag set, and rejects any other order; bit depth 16
yields (0x55, 16 bits), 18 yields (0x66, 24 bits), and any other depth is
rejected with the unsupported-configuration error. -/
theorem create_config_mapping (env : CreateEnv) (cfg : PanelDevConfig)
    (hio : env.io_present = true) (hcp : env.config_present = true)
    (hrp : env.ret_panel_present = true) (hal : env.alloc_ok = true)
    (hgc : env.gpio_config_result = .ok) :
    (cfg.rgb_endian = .other →
       (esp_lcd_new_panel_st7789 env cfg).result = .notSupported ∧
       (esp_lcd_new_panel_st7789 env cfg).panel = none) ∧
    (cfg.bits_per_pixel ≠ 16 → cfg.bits_per_pixel ≠ 18 →
       (esp_lcd_new_panel_st7789 env cfg).result = .notSupported ∧
       (esp_lcd_new_panel_st7789 env cfg).panel = none) ∧
    (∀ p, (esp_lcd_new_panel_st7789 env cfg).panel = some p →
       (cfg.rgb_endian = .rgb → p.madctl_val = 0) ∧
       (cfg.rgb_endian = .bgr → p.madctl_val = LCD_CMD_BGR_BIT) ∧
       (cfg.bits_per_pixel = 16 → p.colmod_cal = 0x55 ∧ p.fb_bits_per_pixel = 16) ∧
       (cfg.bits_per_pixel = 18 → p.colmod_cal = 0x66 ∧ p.fb_bits_per_pixel = 24)) ∧
    (cfg.rgb_endian ≠ .other → (cfg.bits_per_pixel = 16 ∨ cfg.bits_per_pixel = 18) →
       (esp_lcd_new_panel_st7789 env cfg).result = .ok ∧
       (esp_lcd_new_panel_st7789 env cfg).panel.isSome = true) := by
  obtain ⟨eio, ecp, erp, eal, egc⟩ := env
  simp only at hio hcp hrp hal hgc
  subst hio hcp hrp hal hgc
  obtain ⟨pin, endian, bpp, lvl⟩ := cfg
  cases endian <;>
    by_cases h16 : bpp = 16 <;>
      by_cases h18 : bpp = 18 <;>
        simp_all [esp_lcd_new_panel_st7789, createErr, LCD_CMD_BGR_BIT]

/-- Witness for C1 at a concrete input: a BGR, 18-bit request with every
collaborator available succeeds with the BGR flag set, pixel-format code
0x66 and 24 stored bits per pixel. -/
theorem create_config_mapping_witness :
    (esp_lcd_new_panel_st7789 ⟨true, true, true, true, .ok⟩ ⟨-1, .bgr, 18, false⟩).result = .ok ∧
    ∀ p, (esp_lcd_new_panel_st7789 ⟨true, true, true, true, .ok⟩ ⟨-1, .bgr, 18, false⟩).panel = some p →
      p.madctl_val = 8 ∧ p.colmod_cal = 0x66 ∧ p.fb_bits_per_pixel = 24 := by
  have h := create_config_mapping ⟨true, true, true, true, .ok⟩ ⟨-1, .bgr, 18, false⟩
    rfl rfl rfl rfl rfl
  refine ⟨(h.2.2.2 (by decide) (Or.inr rfl)).1, ?_⟩
  intro p hp
  have h2 := h.2.2.1 p hp
  exact ⟨h2.2.1 rfl, h2.2.2.2 rfl⟩

/-- C8: every failing creation request returns the corresponding error and
fully unwinds: no panel handle is produced, the allocated instance is not
left live, and a configured reset pin is not left live. -/
theorem create_unwinds (env : CreateEnv) (cfg : PanelDevConfig) :
    ((env.io_present && env.config_present && env.ret_panel_present) = false →
       (esp_lcd_new_panel_st7789 env cfg).result = .invalidArg) ∧
    ((env.io_present && env.config_present && env.ret_panel_present) = true →
       env.alloc_ok = false →
       (esp_lcd_new_panel_st7789 env cfg).result = .noMem) ∧
    ((env.io_present && env.config_present && env.ret_panel_present) = true →
       env.alloc_ok = true → 0 ≤ cfg.reset_gpio_num → env.gpio_config_result ≠ .ok →
       (esp_lcd_new_panel_st7789 env cfg).result = env.gpio_config_result) ∧
    ((esp_lcd_new_panel_st7789 env cfg).result ≠ .ok →
       (esp_lcd_new_panel_st7789 env cfg).panel = none ∧
       (esp_lcd_new_panel_st7789 env cfg).allocLive = false ∧
       (esp_lcd_new_panel_st7789 env cfg).pinLive = false) := by
  obtain ⟨eio, ecp, erp, eal, egc⟩ := env
  obtain ⟨pin, endian, bpp, lvl⟩ := cfg
  refine ⟨?_, ?_, ?_, ?_⟩
  · intro h
    cases eio <;> cases ecp <;> cases erp <;>
      simp_all [esp_lcd_new_panel_st7789, createErr]
  · intro h h2
    simp_all [esp_lcd_new_panel_st7789, createErr]
  · intro h h2 h3 h4
    simp_all [esp_lcd_new_panel_st7789, createErr]
  · generalize hr : esp_lcd_new_panel_st7789 ⟨eio, ecp, erp, eal, egc⟩ ⟨pin, endian, bpp, lvl⟩ = r
    simp only [esp_lcd_new_panel_st7789, createErr] at hr
    intro h
    repeat' (split at hr)
    all_goals subst hr
    all_goals first
      | exact absurd rfl h
      | simp

/-- Witness for C8 at a concrete input: a request whose reset-pin
configuration fails returns that error with no handle and no live
resources; a request with a failing allocation returns the out-of-memory
error. -/
theorem create_unwinds_witness :
    (esp_lcd_new_panel_st7789 ⟨true, true, true, true, .fail 7⟩ ⟨2, .rgb, 16, true⟩).result = .fail 7 ∧
    (esp_lcd_new_panel_st7789 ⟨true, true, true, true, .fail 7⟩ ⟨2, .rgb, 16, true⟩).panel = none ∧
    (esp_lcd_new_panel_st7789 ⟨true, true, true, true, .fail 7⟩ ⟨2, .rgb, 16, true⟩).allocLive = false ∧
    (esp_lcd_new_panel_st7789 ⟨true, true, true, true, .fail 7⟩ ⟨2, .rgb, 16, true⟩).pinLive = false ∧
    (esp_lcd_new_panel_st7789 ⟨true, true, true, false, .ok⟩ ⟨2, .rgb, 16, true⟩).result = .noMem := by
  have h := create_unwinds ⟨true, true, true, true, .fail 7⟩ ⟨2, .rgb, 16, true⟩
  have h1 := h.2.2.1 rfl rfl (by decide) (by decide)
  have h2 := h.2.2.2 (by rw [h1]; decide)
  have h3 := (create_unwinds ⟨true, true, true, false, .ok⟩ ⟨2, .rgb, 16, true⟩).2.1 rfl rfl
  exact ⟨h1, h2.1, h2.2.1, h2.2.2, h3⟩

end St7789

namespace St7789

set_option maxRecDepth 16384

/-- C2: under the precondition and a fully successful transport, DrawBitmap
adds the stored gaps to the coordinates, sends column-address command 0x2A
with the big-endian start and end-1 bytes, then row-address command 0x2B
likewise, then memory-write command 0x2C with payload length
(xEnd-xStart) * (yEnd-yStart) * bitsPerPixel / 8. -/
theorem draw_bitmap_trace (tx : TxReq → EspErr) (st : St7789Panel)
    (xs ys xe ye : Int)
    (hx : xs < xe) (hy : ys < ye)
    (htx : ∀ r, tx r = .ok)
    (hx1 : 0 ≤ xs + st.x_gap) (hx2 : xe + st.x_gap ≤ 65536)
    (hy1 : 0 ≤ ys + st.y_gap) (hy2 : ye + st.y_gap ≤ 65536) :
    panel_st7789_draw_bitmap tx st xs ys xe ye =
      some (.ok,
        [.txParam 0x2A (be16 (xs + st.x_gap) ++ be16 (xe + st.x_gap - 1)),
         .txParam 0x2B (be16 (ys + st.y_gap) ++ be16 (ye + st.y_gap - 1)),
         .txColor 0x2C ((xe - xs) * (ye - ys) * (st.fb_bits_per_pixel : Int) / 8)]) := by
  have e1 := byteHi_eq (xs + st.x_gap) hx1 (by omega)
  have e2 := byteLo_eq (xs + st.x_gap) hx1
  have e3 := byteHi_eq (xe + st.x_gap - 1) (by omega) (by omega)
  have e4 := byteLo_eq (xe + st.x_gap - 1) (by omega)
  have e5 := byteHi_eq (ys + st.y_gap) hy1 (by omega)
  have e6 := byteLo_eq (ys + st.y_gap) hy1
  have e7 := byteHi_eq (ye + st.y_gap - 1) (by omega) (by omega)
  have e8 := byteLo_eq (ye + st.y_gap - 1) (by omega)
  have hlx : xe + st.x_gap - (xs + st.x_gap) = xe - xs := by ring
  have hly : ye + st.y_gap - (ys + st.y_gap) = ye - ys := by ring
  simp only [panel_st7789_draw_bitmap, htx]
  rw [if_pos (⟨hx, hy⟩ : xs < xe ∧ ys < ye)]
  rw [e1, e2, e3, e4, e5, e6, e7, e8, hlx, hly]
  simp [be16, LCD_CMD_CASET, LCD_CMD_RASET, LCD_CMD_RAMWR]

/-- Witness for C2 at the claim's concrete input: drawing (0,0)-(10,20) at
16 bits per pixel with zero gap sends column bytes 00 00 00 09, row bytes
00 00 00 13 and a 400-byte payload. -/
theorem draw_bitmap_trace_witness :
    panel_st7789_draw_bitmap (fun _ => .ok) ⟨-1, false, 0, 0, 16, 0, 0x55⟩ 0 0 10 20 =
      some (.ok, [.txParam 0x2A [0x00, 0x00, 0x00, 0x09],
                  .txParam 0x2B [0x00, 0x00, 0x00, 0x13],
                  .txColor 0x2C 400]) := by
  have h := draw_bitmap_trace (fun _ => .ok) ⟨-1, false, 0, 0, 16, 0, 0x55⟩ 0 0 10 20
    (by decide) (by decide) (fun r => rfl) (by decide) (by decide) (by decide) (by decide)
  rw [h]
  decide

/-- C10: the payload length DrawBitmap sends is independent of the stored
gap offsets: for every state (any xGap, yGap) and every region satisfying
the precondition, the memory-write length equals
(xEnd-xStart) * (yEnd-yStart) * bitsPerPixel / 8 over the caller's
original coordinates. -/
theorem draw_len_gap_independent (tx : TxReq → EspErr) (st : St7789Panel)
    (xs ys xe ye : Int) (hx : xs < xe) (hy : ys < ye) (htx : ∀ r, tx r = .ok) :
    ∃ a b, panel_st7789_draw_bitmap tx st xs ys xe ye =
      some (.ok, [a, b,
        .txColor 0x2C ((xe - xs) * (ye - ys) * (st.fb_bits_per_pixel : Int) / 8)]) := by
  refine ⟨.txParam LCD_CMD_CASET
      [byteHi (xs + st.x_gap), byteLo (xs + st.x_gap),
       byteHi (xe + st.x_gap - 1), byteLo (xe + st.x_gap - 1)],
    .txParam LCD_CMD_RASET
      [byteHi (ys + st.y_gap), byteLo (ys + st.y_gap),
       byteHi (ye + st.y_gap - 1), byteLo (ye + st.y_gap - 1)], ?_⟩
  simp only [panel_st7789_draw_bitmap, htx]
  rw [if_pos (⟨hx, hy⟩ : xs < xe ∧ ys < ye)]
  have hlx : xe + st.x_gap - (xs + st.x_gap) = xe - xs := by ring
  have hly : ye + st.y_gap - (ys + st.y_gap) = ye - ys := by ring
  rw [hlx, hly]
  rfl

/-- Witness for C10 at a concrete input: with gaps (3,5) a 10 by 10 draw at
16 bits per pixel still sends a 200-byte payload, as computed from the
original coordinates. -/
theorem draw_len_gap_independent_witness :
    ∃ a b, panel_st7789_draw_bitmap (fun _ => .ok) ⟨-1, false, 3, 5, 16, 0, 0x55⟩ 0 0 10 10 =
      some (.ok, [a, b, .txColor 0x2C 200]) := by
  obtain ⟨a, b, hab⟩ := draw_len_gap_independent (fun _ => .ok)
    ⟨-1, false, 3, 5, 16, 0, 0x55⟩ 0 0 10 10 (by decide) (by decide) (fun r => rfl)
  refine ⟨a, b, ?_⟩
  rw [hab]
  norm_num

end St7789
